import Mathlib

/-!
Shallow embedding of the credential-management core of `nation-rs`
(src/main.rs): the `Pin` validity rule, the `Auth` credential set, the
credential-selection `match` and response classification in `Request::send`,
`Profile::load`, and the ping/retry orchestration in `main`.

External effects are modelled as explicit parameters: every call to
`Utc::now()` is an `Int` argument (seconds), the raw transport reply is an
`HttpResponse` value supplied by the environment, and the filesystem seen by
`Profile::load` is a `FileRead` value.  A `.unwrap()` that can fail on a
non-conforming value is modelled as a distinguished `panicked` outcome, since
in Rust it aborts instead of returning.
-/

namespace NationRs

/-- Session pin for the NationStates API (`struct Pin`): an opaque `u64`
value and the timestamp at which it was received. -/
structure Pin where
  value : Nat
  timestamp : Int
deriving Repr, DecidableEq

/-- `chrono::Duration::hours(2)` expressed in seconds. -/
def twoHours : Int := 7200

/-- `Pin::valid`: `Utc::now().signed_duration_since(self.timestamp) < Duration::hours(2)`.
`now` is the instant at which `Utc::now()` is sampled. -/
def Pin.valid (p : Pin) (now : Int) : Bool :=
  decide (now - p.timestamp < twoHours)

/-- `struct Auth`: the per-nation credential set of three independently
optional fields. -/
structure Auth where
  password : Option String
  autologin : Option String
  pin : Option Pin
deriving Repr, DecidableEq

/-- `Auth::default()`: all three fields absent. -/
def Auth.default : Auth := ⟨none, none, none⟩

/-- `struct Nation`: a named account owning one credential set. -/
structure Nation where
  name : String
  auth : Auth
deriving Repr, DecidableEq

/-- `struct Nations`: the collection wrapping `Vec<Nation>`. -/
structure Nations where
  inner : List Nation
deriving Repr, DecidableEq

/-- `Nations::new()`. -/
def Nations.new : Nations := ⟨[]⟩

/-- `struct Profile`. -/
structure Profile where
  nations : Nations
deriving Repr, DecidableEq

/-- `Profile::default()`: an empty nation collection. -/
def Profile.default : Profile := ⟨Nations.new⟩

/-- The filesystem/deserializer environment of one `Profile::load` call:
`std::fs::File::open` finds no file (`ErrorKind::NotFound`), fails with some
other io error, or opens the file, in which case `quick_xml::de::from_reader`
either yields a `Nations` value or fails. -/
inductive FileRead where
  | absent
  | ioError
  | openOk (parsed : Option Nations)
deriving Repr, DecidableEq

/-- `enum ProfileError`: the `Io` and `XmlError` variants. -/
inductive ProfileError where
  | io
  | xmlError
deriving Repr, DecidableEq

/-- `Profile::load`: a `NotFound` open error yields the default (empty)
profile, any other open error propagates as `Io`, and a failed XML
deserialization propagates as `XmlError`. -/
def Profile.load (f : FileRead) : Except ProfileError Profile :=
  match f with
  | .absent => .ok Profile.default
  | .ioError => .error .io
  | .openOk none => .error .xmlError
  | .openOk (some ns) => .ok ⟨ns⟩

/-- `api::Shard`. -/
inductive Shard where
  | Ping
deriving Repr, DecidableEq

/-- `api::ResolvedShard`. -/
inductive ResolvedShard where
  | Ping
deriving Repr, DecidableEq

/-- `api::NationData`: the parsed response payload. -/
structure NationData where
  inner : List ResolvedShard
deriving Repr, DecidableEq

/-- `api::Response`: parsed payload plus renewed credentials taken from the
response headers. -/
structure Response where
  data : NationData
  autologin : Option String
  pin : Option Pin
deriving Repr, DecidableEq

/-- `api::Failure`. -/
inductive Failure where
  | NoAuth
  | BadAuth
  | BadPin
  | Other (status : Nat)
deriving Repr, DecidableEq

/-- The raw transport reply as `Request::send` observes it after
`request.send().await`: HTTP status code, the `X-Pin` header already parsed
as a `u64` (`none` when absent or unparseable), the `X-Autologin` header, and
the result of `quick_xml::de::from_str` on the body text (`none` means the
parse fails, so the `.unwrap()` on it panics). -/
structure HttpResponse where
  status : Nat
  headerPin : Option Nat
  headerAutologin : Option String
  bodyData : Option NationData
deriving Repr, DecidableEq

/-- Which credential kind the `match` in `Request::send` attaches to the
outgoing request. -/
inductive CredKind where
  | pin
  | autologin
  | password
deriving Repr, DecidableEq

/-- Arms 2 to 4 of the credential `match` in `Request::send`, reached
whenever the pin arm does not fire: autologin if present, else password if
present, else no credential. -/
def selectNonPin (auth : Auth) : Option CredKind :=
  match auth.autologin with
  | some _ => some .autologin
  | none =>
    match auth.password with
    | some _ => some .password
    | none => none

/-- The credential `match` in `Request::send`: the first arm fires when the
pin is present and `pin.valid()` holds (sampled at `now`); otherwise matching
falls through to the autologin and password arms. -/
def selectCredential (auth : Auth) (now : Int) : Option CredKind :=
  match auth.pin with
  | some p => if p.valid now then some .pin else selectNonPin auth
  | none => selectNonPin auth

/-- Result of one `Request::send` call: the `Ok(Response)` value, an
`Err(Failure)` value, or a panic of the process (an `.unwrap()` failed and
no value is returned at all). -/
inductive SendResult where
  | ok (r : Response)
  | err (f : Failure)
  | panicked
deriving Repr, DecidableEq

/-- `Option.isSome`-style observer: whether a `SendResult` is an `Err` value
returned to the caller. -/
def SendResult.isErr : SendResult → Bool
  | .err _ => true
  | _ => false

/-- A `SendResult` together with how many transport attempts the call made:
`0` when it short-circuits with `NoAuth` before `request.send()`, `1`
otherwise. -/
structure SendOutcome where
  result : SendResult
  attempts : Nat
deriving Repr, DecidableEq

/-- `api::Request`: the target nation and the requested shards. -/
structure Request where
  nation : Nation
  shards : List Shard
deriving Repr, DecidableEq

/-- `Request::send` (lines 244-291 of src/main.rs).  `nowSel` is the
`Utc::now()` sample used by `pin.valid()` inside the credential `match`;
`nowRecv` is the `let timestamp = Utc::now()` taken right after the response
arrives.  Selection: pin if present and valid, else autologin, else
password, else return `Err(NoAuth)` with no transport attempt.  Any renewed
pin from the `X-Pin` header is stamped with `nowRecv`.  Status 200 parses
the body (panicking if it does not conform) and returns `Ok`; status 403
returns `BadPin` when the pin was the attempted kind and `BadAuth`
otherwise; any other status returns `Other(status)`. -/
def Request.send (req : Request) (nowSel : Int) (resp : HttpResponse) (nowRecv : Int) :
    SendOutcome :=
  match selectCredential req.nation.auth nowSel with
  | none => ⟨.err .NoAuth, 0⟩
  | some kind =>
    let usingPin : Bool := kind == CredKind.pin
    let timestamp := nowRecv
    let pin : Option Pin := resp.headerPin.map (fun value => ⟨value, timestamp⟩)
    let autologin := resp.headerAutologin
    if resp.status = 200 then
      match resp.bodyData with
      | some data => ⟨.ok ⟨data, autologin, pin⟩, 1⟩
      | none => ⟨.panicked, 1⟩
    else if resp.status = 403 then
      ⟨.err (if usingPin then .BadPin else .BadAuth), 1⟩
    else
      ⟨.err (.Other resp.status), 1⟩

/-- Errors with which the `Opt::Ping` arm of `main` terminates: the nation
is missing from the profile, a `Failure` is reported via `bail`, or the
process panicked inside `send`. -/
inductive PingError where
  | nationNotFound (name : String)
  | failure (f : Failure)
  | panicked
deriving Repr, DecidableEq

/-- How one ping operation ends.  `silentOk` is the path where the first
attempt fails with `BadPin` and `retry_pin` is false: the `match` arm ends
after clearing the pin, and `main` returns `Ok(())` with no data and no
reported error. -/
inductive PingOutcome where
  | success (data : NationData)
  | silentOk
  | failed (e : PingError)
deriving Repr, DecidableEq

/-- The environment of one ping operation: clock samples and transport
replies for the first attempt (`sel1`, `resp1`, `recv1`) and for the retry,
if one is made (`sel2`, `resp2`, `recv2`). -/
structure PingEnv where
  sel1 : Int
  resp1 : HttpResponse
  recv1 : Int
  sel2 : Int
  resp2 : HttpResponse
  recv2 : Int
deriving Repr, DecidableEq

/-- The success-handling block of `main` (duplicated in the source at lines
318-328 and 339-349): if the response carries a renewed autologin, store it
and delete the stored password; if it carries a renewed pin, store it. -/
def applySuccess (auth : Auth) (autologin : Option String) (pin : Option Pin) : Auth :=
  let auth :=
    match autologin with
    | some al => { auth with autologin := some al, password := none }
    | none => auth
  match pin with
  | some p => { auth with pin := some p }
  | none => auth

/-- Result of `pingNation`: the outcome, the nation's in-memory `Auth` after
the operation, whether `profile.save` was called, and how many transport
attempts were made. -/
structure PingNationResult where
  outcome : PingOutcome
  auth : Auth
  saved : Bool
  attempts : Nat
deriving Repr, DecidableEq

/-- The `Opt::Ping` arm of `main` from the first `req.send` onward (lines
316-357), acting on one nation's `Auth`.  On `Ok`, apply the success
mutations and save.  On `Err(BadPin)`, clear the pin unconditionally; then,
only if `retry_pin` is set, send exactly once more and either apply the
success mutations and save, or `bail` with the retry's failure; with
`retry_pin` unset the arm simply ends.  On any other `Err`, `bail` with it. -/
def pingNation (name : String) (auth : Auth) (retryPin : Bool) (env : PingEnv) :
    PingNationResult :=
  let req : Request := ⟨⟨name, auth⟩, [Shard.Ping]⟩
  match req.send env.sel1 env.resp1 env.recv1 with
  | ⟨.ok r, n⟩ => ⟨.success r.data, applySuccess auth r.autologin r.pin, true, n⟩
  | ⟨.err .BadPin, n⟩ =>
    let auth2 : Auth := { auth with pin := none }
    if retryPin then
      let req2 : Request := ⟨⟨name, auth2⟩, [Shard.Ping]⟩
      match req2.send env.sel2 env.resp2 env.recv2 with
      | ⟨.ok r, m⟩ => ⟨.success r.data, applySuccess auth2 r.autologin r.pin, true, n + m⟩
      | ⟨.err f, m⟩ => ⟨.failed (.failure f), auth2, false, n + m⟩
      | ⟨.panicked, m⟩ => ⟨.failed .panicked, auth2, false, n + m⟩
    else
      ⟨.silentOk, auth2, false, n⟩
  | ⟨.err f, n⟩ => ⟨.failed (.failure f), auth, false, n⟩
  | ⟨.panicked, n⟩ => ⟨.failed .panicked, auth, false, n⟩

/-- The in-place mutation through `iter_mut().find(...)`: replace the `Auth`
of the first nation whose name matches. -/
def updateNation (ns : List Nation) (name : String) (auth : Auth) : List Nation :=
  match ns with
  | [] => []
  | n :: rest =>
    if n.name = name then { n with auth := auth } :: rest
    else n :: updateNation rest name auth

/-- Result of a whole `ping` operation at the profile level. -/
structure PingResult where
  outcome : PingOutcome
  profile : Profile
  saved : Bool
  attempts : Nat
deriving Repr, DecidableEq

/-- The whole `Opt::Ping` arm of `main` after `Profile::load` succeeded:
look the nation up by name (bailing with not-found when absent), run the
attempt/retry protocol on its credentials, and carry the mutated profile. -/
def ping (profile : Profile) (name : String) (retryPin : Bool) (env : PingEnv) :
    PingResult :=
  match profile.nations.inner.find? (fun n => n.name == name) with
  | none => ⟨.failed (.nationNotFound name), profile, false, 0⟩
  | some nation =>
    let r := pingNation name nation.auth retryPin env
    ⟨r.outcome, ⟨⟨updateNation profile.nations.inner name r.auth⟩⟩, r.saved, r.attempts⟩

/-! Concrete fixtures used to instantiate the theorems below. -/

/-- A nation name used in concrete instantiations. -/
def aliceName : String := "alice"

/-- A concrete autologin token. -/
def tokenStr : String := "tok"

/-- A concrete password. -/
def pwStr : String := "pw"

/-- A concrete pin issued at time 0. -/
def pinA : Pin := ⟨7, 0⟩

/-- Credential set with a pin and an autologin token, no password. -/
def authPinTok : Auth := ⟨none, some tokenStr, some pinA⟩

/-- Credential set with only a password. -/
def authPw : Auth := ⟨some pwStr, none, none⟩

/-- Credential set with a password and a pin, no autologin. -/
def authPwPin : Auth := ⟨some pwStr, none, some pinA⟩

/-- The empty credential set. -/
def authEmpty : Auth := ⟨none, none, none⟩

/-- A 403 authentication-rejection reply with no renewal headers. -/
def resp403 : HttpResponse := ⟨403, none, none, none⟩

/-- A 200 reply carrying a renewed pin header and a well-formed body. -/
def resp200 : HttpResponse := ⟨200, some 9, none, some ⟨[ResolvedShard.Ping]⟩⟩

/-- A 200 reply whose body does not conform to the wire schema. -/
def resp200bad : HttpResponse := ⟨200, none, none, none⟩

/-- Environment: first attempt rejected with 403, retry answered with 200. -/
def envA : PingEnv := ⟨0, resp403, 1, 2, resp200, 3⟩

/-- Environment: both attempts rejected with 403. -/
def envB : PingEnv := ⟨0, resp403, 1, 2, resp403, 3⟩

/-- Environment: first attempt is a 200 with a non-conforming body. -/
def envBad : PingEnv := ⟨0, resp200bad, 1, 2, resp200, 3⟩

/-- Profile holding the single nation `aliceName` with pin and autologin. -/
def profA : Profile := ⟨⟨[⟨aliceName, authPinTok⟩]⟩⟩

/-! Helper lemmas shared by the claim theorems. -/

/-- The fall-through selector never chooses the pin. -/
theorem selectNonPin_ne_pin (auth : Auth) : selectNonPin auth ≠ some CredKind.pin := by
  unfold selectNonPin
  cases auth.autologin
  · cases auth.password <;> simp
  · simp

/-- With the pin field cleared, selection reduces to the fall-through arms. -/
theorem selectCredential_pin_none (auth : Auth) (now : Int) (h : auth.pin = none) :
    selectCredential auth now = selectNonPin auth := by
  unfold selectCredential
  rw [h]

/-- One `Request::send` call makes at most one transport attempt. -/
theorem send_attempts_le_one (req : Request) (a : Int) (r : HttpResponse) (b : Int) :
    (req.send a r b).attempts ≤ 1 := by
  unfold Request.send
  cases selectCredential req.nation.auth a
  · simp
  · simp only []
    split
    · cases r.bodyData <;> simp
    · split <;> simp

/-- A `BadPin` result comes from exactly one transport attempt. -/
theorem send_badPin_shape (req : Request) (a : Int) (r : HttpResponse) (b : Int)
    (h : (req.send a r b).result = .err .BadPin) :
    req.send a r b = ⟨.err .BadPin, 1⟩ := by
  unfold Request.send at h ⊢
  cases hsel : selectCredential req.nation.auth a <;> rw [hsel] at h
  · simp at h
  · simp only [] at h ⊢
    split at h
    · cases hb : r.bodyData <;> rw [hb] at h <;> simp_all
    · split at h <;> simp_all

/-- C1: for every request attempt (some credential kind `k` was selected),
the classification of the reply depends on the status code only for the
success/rejection split and on the attempted kind for disambiguating
rejections: a 200 status yields `Ok` (Success) with the parsed payload and
the renewed credentials, a 403 status yields `BadPin` exactly when the
attempted kind was the pin and `BadAuth` when it was the autologin or the
password, and any other status yields `Other` carrying that status. -/
theorem C1_response_classification
    (req : Request) (nowSel : Int) (resp : HttpResponse) (nowRecv : Int) (k : CredKind)
    (hsel : selectCredential req.nation.auth nowSel = some k) :
    (resp.status = 403 →
      (req.send nowSel resp nowRecv).result =
        .err (if k = CredKind.pin then Failure.BadPin else Failure.BadAuth)) ∧
    (∀ d, resp.status = 200 → resp.bodyData = some d →
      (req.send nowSel resp nowRecv).result =
        .ok ⟨d, resp.headerAutologin, resp.headerPin.map (fun v => ⟨v, nowRecv⟩)⟩) ∧
    (resp.status ≠ 200 → resp.status ≠ 403 →
      (req.send nowSel resp nowRecv).result = .err (.Other resp.status)) := by
  unfold Request.send
  rw [hsel]
  refine ⟨?_, ?_, ?_⟩
  · intro h403
    rw [h403]
    cases k <;> simp
  · intro d h200 hbody
    rw [h200, hbody]
    simp
  · intro h200 h403
    simp [h200, h403]

/-- C1 witness: with a valid pin selected, a 403 reply classifies as
`BadPin`. -/
theorem C1_witness :
    selectCredential authPinTok 0 = some CredKind.pin ∧
    ((Request.mk ⟨aliceName, authPinTok⟩ [Shard.Ping]).send 0 resp403 5).result =
      .err Failure.BadPin :=
  ⟨by decide, by
    simpa using
      (C1_response_classification (Request.mk ⟨aliceName, authPinTok⟩ [Shard.Ping])
        0 resp403 5 CredKind.pin (by decide)).1 rfl⟩

/-- C2: the selector picks exactly one credential in priority order — the
pin when present and time-valid, otherwise the autologin when present,
otherwise the password when present — and when none of the three qualifies
the call fails with `NoAuth` and makes zero transport attempts. -/
theorem C2_selection_priority
    (req : Request) (nowSel : Int) (resp : HttpResponse) (nowRecv : Int) :
    (∀ p, req.nation.auth.pin = some p → p.valid nowSel = true →
      selectCredential req.nation.auth nowSel = some CredKind.pin) ∧
    ((∀ p, req.nation.auth.pin = some p → p.valid nowSel = false) →
      ∀ a, req.nation.auth.autologin = some a →
        selectCredential req.nation.auth nowSel = some CredKind.autologin) ∧
    ((∀ p, req.nation.auth.pin = some p → p.valid nowSel = false) →
      req.nation.auth.autologin = none →
      ∀ w, req.nation.auth.password = some w →
        selectCredential req.nation.auth nowSel = some CredKind.password) ∧
    ((∀ p, req.nation.auth.pin = some p → p.valid nowSel = false) →
      req.nation.auth.autologin = none → req.nation.auth.password = none →
        selectCredential req.nation.auth nowSel = none ∧
        req.send nowSel resp nowRecv = ⟨.err .NoAuth, 0⟩) := by
  refine ⟨?_, ?_, ?_, ?_⟩
  · intro p hp hv
    unfold selectCredential
    rw [hp]
    simp [hv]
  · intro hinv a ha
    unfold selectCredential selectNonPin
    rw [ha]
    cases hp : req.nation.auth.pin
    · simp
    · simp [hinv _ hp]
  · intro hinv ha w hw
    unfold selectCredential selectNonPin
    rw [ha, hw]
    cases hp : req.nation.auth.pin
    · simp
    · simp [hinv _ hp]
  · intro hinv ha hw
    have hnone : selectCredential req.nation.auth nowSel = none := by
      unfold selectCredential selectNonPin
      rw [ha, hw]
      cases hp : req.nation.auth.pin
      · simp
      · simp [hinv _ hp]
    refine ⟨hnone, ?_⟩
    unfold Request.send
    rw [hnone]

/-- C2 witness: the empty credential set selects nothing and the send
short-circuits with `NoAuth` after zero transport attempts. -/
theorem C2_witness :
    selectCredential authEmpty 0 = none ∧
    (Request.mk ⟨aliceName, authEmpty⟩ [Shard.Ping]).send 0 resp403 5 =
      ⟨.err Failure.NoAuth, 0⟩ := by
  have h :=
    (C2_selection_priority (Request.mk ⟨aliceName, authEmpty⟩ [Shard.Ping]) 0 resp403 5).2.2.2
      (fun p hp => Option.noConfusion hp) rfl rfl
  exact h

/-- C3: when the first attempt of a ping operation classifies as `BadPin`,
the pin is cleared immediately and unconditionally — with retry disabled the
operation ends at once with the pin gone after the single attempt, and with
retry enabled the one retry selects over the pin-cleared credential set (so
it can never pick the pin), a failed retry is reported as the final outcome
with the pin still gone and nothing further attempted — and in every case
the operation makes at most two transport attempts. -/
theorem C3_badpin_clear_and_single_retry
    (name : String) (auth : Auth) (retryPin : Bool) (env : PingEnv)
    (h1 : ((Request.mk ⟨name, auth⟩ [Shard.Ping]).send env.sel1 env.resp1 env.recv1).result
            = .err .BadPin) :
    (retryPin = false →
      pingNation name auth retryPin env =
        ⟨.silentOk, { auth with pin := none }, false, 1⟩) ∧
    (retryPin = true →
      selectCredential { auth with pin := none } env.sel2 ≠ some CredKind.pin ∧
      ∀ f, ((Request.mk ⟨name, { auth with pin := none }⟩ [Shard.Ping]).send
              env.sel2 env.resp2 env.recv2).result = .err f →
        (pingNation name auth retryPin env).outcome = .failed (.failure f) ∧
        (pingNation name auth retryPin env).auth = { auth with pin := none } ∧
        (pingNation name auth retryPin env).saved = false) ∧
    (pingNation name auth retryPin env).attempts ≤ 2 := by
  have hshape := send_badPin_shape _ _ _ _ h1
  refine ⟨?_, ?_, ?_⟩
  · intro hr
    simp only [pingNation]
    rw [hshape, hr]
    simp
  · intro hr
    refine ⟨?_, ?_⟩
    · rw [selectCredential_pin_none _ _ rfl]
      exact selectNonPin_ne_pin auth
    · intro f hf
      simp only [pingNation]
      rw [hshape, hr]
      rcases hs2 : (Request.mk ⟨name, { auth with pin := none }⟩ [Shard.Ping]).send
          env.sel2 env.resp2 env.recv2 with ⟨res2, m2⟩
      rw [hs2] at hf
      simp only at hf
      rw [hf]
      simp
  · simp only [pingNation]
    rw [hshape]
    have hle := send_attempts_le_one (Request.mk ⟨name, { auth with pin := none }⟩ [Shard.Ping])
      env.sel2 env.resp2 env.recv2
    rcases hs2 : (Request.mk ⟨name, { auth with pin := none }⟩ [Shard.Ping]).send
        env.sel2 env.resp2 env.recv2 with ⟨res2, m2⟩
    rw [hs2] at hle
    simp only at hle
    cases retryPin
    · simp
    · cases res2 <;> simp <;> omega

/-- C3 witness: pin and autologin present, both attempts answered 403 — the
retry uses the autologin and its `BadAuth` failure is reported with the pin
still cleared, after two attempts in total. -/
theorem C3_witness :
    ((Request.mk ⟨aliceName, authPinTok⟩ [Shard.Ping]).send envB.sel1 envB.resp1
        envB.recv1).result = .err Failure.BadPin ∧
    ((Request.mk ⟨aliceName, { authPinTok with pin := none }⟩ [Shard.Ping]).send envB.sel2
        envB.resp2 envB.recv2).result = .err Failure.BadAuth ∧
    (pingNation aliceName authPinTok true envB).outcome =
      .failed (.failure Failure.BadAuth) ∧
    (pingNation aliceName authPinTok true envB).auth = { authPinTok with pin := none } ∧
    (pingNation aliceName authPinTok true envB).saved = false := by
  have h := (C3_badpin_clear_and_single_retry aliceName authPinTok true envB (by decide)).2.1
    rfl
  exact ⟨by decide, by decide, h.2 Failure.BadAuth (by decide)⟩

/-- C4: applying a `Success` outcome that carries a renewed autologin token
stores the new autologin and sets the password field to absent, regardless
of the password's prior value. -/
theorem C4_autologin_upgrade_clears_password (auth : Auth) (al : String) (p : Option Pin) :
    (applySuccess auth (some al) p).password = none ∧
    (applySuccess auth (some al) p).autologin = some al := by
  cases p <;> simp [applySuccess]

/-- C5 counterexample: with retry disabled and the single attempt answered
403 against a valid pin (so it classifies `BadPin`), the operation does NOT
surface a `BadPin` error — the `Err(BadPin)` match arm just ends after
clearing the pin, and `main` returns `Ok(())` — refuting the claim that a
`BadPin` error is surfaced to the caller in this case. -/
theorem C5_counterexample :
    (ping profA aliceName false envA).outcome = PingOutcome.silentOk ∧
    (ping profA aliceName false envA).outcome ≠
      PingOutcome.failed (PingError.failure Failure.BadPin) := by
  decide

/-- C5 amended: with retry disabled and the single attempt classified
`BadPin`, exactly one transport attempt is made and the in-memory pin is
cleared, but no error is surfaced: the operation ends silently (and nothing
is saved). -/
theorem C5_amended_silent_badpin (name : String) (auth : Auth) (env : PingEnv)
    (h1 : ((Request.mk ⟨name, auth⟩ [Shard.Ping]).send env.sel1 env.resp1 env.recv1).result
            = .err .BadPin) :
    pingNation name auth false env = ⟨.silentOk, { auth with pin := none }, false, 1⟩ := by
  have hshape := send_badPin_shape _ _ _ _ h1
  simp only [pingNation]
  rw [hshape]
  simp

/-- C5 witness: the amended statement at the concrete fixture. -/
theorem C5_witness :
    ((Request.mk ⟨aliceName, authPinTok⟩ [Shard.Ping]).send envA.sel1 envA.resp1
        envA.recv1).result = .err Failure.BadPin ∧
    pingNation aliceName authPinTok false envA =
      ⟨.silentOk, { authPinTok with pin := none }, false, 1⟩ :=
  ⟨by decide, C5_amended_silent_badpin aliceName authPinTok envA (by decide)⟩

/-- C6: a renewed pin replaces any prior pin exactly — applying a `Success`
outcome carrying pin `p` leaves the credential set with pin `p` — and the
pin a successful send returns is built from the `X-Pin` header value paired
with the response-receipt clock sample `nowRecv`, not the request-send
sample `nowSel`. -/
theorem C6_pin_replacement :
    (∀ (auth : Auth) (al : Option String) (p : Pin),
      (applySuccess auth al (some p)).pin = some p) ∧
    (∀ (req : Request) (nowSel : Int) (resp : HttpResponse) (nowRecv : Int) (r : Response),
      (req.send nowSel resp nowRecv).result = .ok r →
        r.pin = resp.headerPin.map (fun v => ⟨v, nowRecv⟩)) := by
  constructor
  · intro auth al p
    cases al <;> simp [applySuccess]
  · intro req nowSel resp nowRecv r h
    unfold Request.send at h
    cases hsel : selectCredential req.nation.auth nowSel <;> rw [hsel] at h
    · simp at h
    · simp only [] at h
      split at h
      · cases hb : resp.bodyData <;> rw [hb] at h
        · simp at h
        · injection h with h
          rw [← h]
      · split at h <;> simp at h

/-- C6 witness: a password-authenticated 200 reply carrying pin header 9,
received at time 5, yields a response whose pin is 9 stamped at 5. -/
theorem C6_witness :
    ((Request.mk ⟨aliceName, authPw⟩ [Shard.Ping]).send 0 resp200 5).result =
      .ok ⟨⟨[ResolvedShard.Ping]⟩, none, some ⟨9, 5⟩⟩ ∧
    (⟨⟨[ResolvedShard.Ping]⟩, none, some ⟨9, 5⟩⟩ : Response).pin = some ⟨9, 5⟩ :=
  ⟨by decide,
    C6_pin_replacement.2 (Request.mk ⟨aliceName, authPw⟩ [Shard.Ping]) 0 resp200 5
      ⟨⟨[ResolvedShard.Ping]⟩, none, some ⟨9, 5⟩⟩ (by decide)⟩

/-- C7: a pin is valid iff `now` minus its timestamp is strictly below two
hours; when the difference is at least two hours, `valid` returns false and
selection skips the present-but-expired pin, falling through to the
non-pin arms (so it never picks the pin). -/
theorem C7_pin_expiry_skipped (auth : Auth) (p : Pin) (now : Int)
    (hp : auth.pin = some p) (hexp : twoHours ≤ now - p.timestamp) :
    (∀ q : Pin, q.valid now = true ↔ now - q.timestamp < twoHours) ∧
    p.valid now = false ∧
    selectCredential auth now = selectNonPin auth ∧
    selectCredential auth now ≠ some CredKind.pin := by
  have hiff : ∀ q : Pin, q.valid now = true ↔ now - q.timestamp < twoHours := by
    intro q
    simp [Pin.valid]
  have hfalse : p.valid now = false := by
    simp [Pin.valid]
    omega
  have hsel : selectCredential auth now = selectNonPin auth := by
    unfold selectCredential
    rw [hp]
    simp [hfalse]
  refine ⟨hiff, hfalse, hsel, ?_⟩
  rw [hsel]
  exact selectNonPin_ne_pin auth

/-- C7 witness: the pin issued at 0 is expired at time 7200, and selection
on a password-and-pin set falls through past the pin. -/
theorem C7_witness :
    authPwPin.pin = some pinA ∧
    twoHours ≤ 7200 - pinA.timestamp ∧
    Pin.valid pinA 7200 = false ∧
    selectCredential authPwPin 7200 = selectNonPin authPwPin ∧
    selectCredential authPwPin 7200 ≠ some CredKind.pin := by
  have h := C7_pin_expiry_skipped authPwPin pinA 7200 rfl (by decide)
  exact ⟨rfl, by decide, h.2.1, h.2.2.1, h.2.2.2⟩

/-- C8 counterexample: a password-authenticated attempt answered 200 with a
body that does not conform to the wire schema does not produce any error
value returned to the caller — the `.unwrap()` on the body parse panics
instead (indeed the `Failure` enum of the source has no schema variant at
all), refuting the claim that a `SchemaError` is produced and propagated. -/
theorem C8_counterexample :
    (Request.mk ⟨aliceName, authPw⟩ [Shard.Ping]).send 0 resp200bad 1 =
      ⟨SendResult.panicked, 1⟩ ∧
    ((Request.mk ⟨aliceName, authPw⟩ [Shard.Ping]).send 0 resp200bad 1).result.isErr =
      false := by
  decide

/-- C8 amended: for every request attempt answered 200 with a
non-conforming body, the ping operation panics at the unwrap inside `send`:
no `Failure` value is returned, no retry happens regardless of the retry
flag, nothing is saved, the credential set is untouched, and exactly one
transport attempt was made. -/
theorem C8_amended_schema_panic (name : String) (auth : Auth) (retryPin : Bool)
    (env : PingEnv) (k : CredKind)
    (hsel : selectCredential auth env.sel1 = some k)
    (h200 : env.resp1.status = 200) (hbody : env.resp1.bodyData = none) :
    pingNation name auth retryPin env = ⟨.failed .panicked, auth, false, 1⟩ := by
  have hs : (Request.mk ⟨name, auth⟩ [Shard.Ping]).send env.sel1 env.resp1 env.recv1
      = ⟨.panicked, 1⟩ := by
    unfold Request.send
    rw [hsel]
    simp [h200, hbody]
  simp only [pingNation]
  rw [hs]

/-- C8 witness: the amended statement at the concrete fixture. -/
theorem C8_witness :
    selectCredential authPw envBad.sel1 = some CredKind.password ∧
    envBad.resp1.status = 200 ∧
    envBad.resp1.bodyData = none ∧
    pingNation aliceName authPw true envBad =
      ⟨.failed .panicked, authPw, false, 1⟩ :=
  ⟨by decide, rfl, rfl,
    C8_amended_schema_panic aliceName authPw true envBad CredKind.password
      (by decide) rfl rfl⟩

/-- C9: loading the profile from an absent file succeeds with the empty
nation collection, while any other open failure propagates as an io error
and a failed XML deserialization propagates as an xml error. -/
theorem C9_load_absent_is_empty :
    Profile.load .absent = .ok ⟨⟨[]⟩⟩ ∧
    Profile.load .ioError = .error .io ∧
    Profile.load (.openOk none) = .error .xmlError ∧
    ∀ ns, Profile.load (.openOk (some ns)) = .ok ⟨ns⟩ :=
  ⟨rfl, rfl, rfl, fun _ => rfl⟩

/-- Case analysis shared with C10: one protocol run saves the profile
exactly when its outcome is a `success`. -/
theorem pingNation_saved_iff_success (name : String) (auth : Auth) (retryPin : Bool)
    (env : PingEnv) :
    (pingNation name auth retryPin env).saved = true ↔
      ∃ d, (pingNation name auth retryPin env).outcome = .success d := by
  simp only [pingNation]
  rcases h1 : (Request.mk ⟨name, auth⟩ [Shard.Ping]).send env.sel1 env.resp1 env.recv1
    with ⟨res1, n1⟩
  cases res1 with
  | ok r => simp
  | panicked => simp
  | err f =>
    cases f with
    | BadPin =>
      cases retryPin
      · simp
      · rcases h2 : (Request.mk ⟨name, { auth with pin := none }⟩ [Shard.Ping]).send
            env.sel2 env.resp2 env.recv2 with ⟨res2, m2⟩
        cases res2 <;> simp
    | NoAuth => simp
    | BadAuth => simp
    | Other s => simp

/-- C10: the profile file is saved exactly when a transport attempt (first
or retry) returns Success; on every other outcome — nation not found,
`NoAuth`, `BadAuth`, `Other`, `BadPin` with retry disabled, a failed retry,
or a panic — `Profile::save` is never called, so the durable on-disk
profile stays exactly as loaded even when the in-memory pin was cleared. -/
theorem C10_save_only_on_success (profile : Profile) (name : String) (retryPin : Bool)
    (env : PingEnv) :
    (ping profile name retryPin env).saved = true ↔
      ∃ d, (ping profile name retryPin env).outcome = .success d := by
  simp only [ping]
  cases hf : profile.nations.inner.find? (fun n => n.name == name) with
  | none => simp
  | some nation => exact pingNation_saved_iff_success name nation.auth retryPin env

end NationRs
